import Mathlib

/-!
Verification of the pepnet configuration/graph-assembly layer.

The numeric loss functions of `pepnet/losses.py` are embedded as pure
functions on lists of rationals (one list = the trailing feature axis of a
single sample; the leading sample axis of the Keras tensors is handled
per-sample).  The NaN sentinel that `masked_mse` reads from `y_true` is
embedded by typing `y_true` entries as `Option ℚ`, with `none` standing for
the not-a-number sentinel: `tensorflow.debugging.is_nan` becomes
`Option.isNone`, and `K.switch(mask, zeros, squared)` discards the squared
difference exactly where the entry is `none`, as the source does.

`SequenceInput` (`pepnet/sequence_input.py`) and `Output`
(`pepnet/output.py`) are embedded as structures; their Python constructors
become total functions into `Except String _`, with `raise ValueError` and a
failing `assert` mapped to `Except.error`.  Keras graph construction is
abstracted to the list of layer operations emitted (`ConvOp`); only the
convolution stack matters for the claims because it is the one build stage
that touches configuration state (`dict.pop` on the per-layer records).
-/

namespace Pepnet

/-- `K.mean(xs, axis=-1)` on the feature axis of one sample: the sum divided
by the full feature count.  (For the empty axis rational division by zero
yields 0; no claim depends on that case.) -/
def kMean (xs : List ℚ) : ℚ := xs.sum / (xs.length : ℚ)

/-- `losses.positive_only_mse` (losses.py lines 19-29), per sample:
`diff = y_pred - y_true`; `squared = K.square(diff)`;
`mask = y_pred >= 0`; `squared *= K.cast(mask, "float32")`;
`K.mean(squared, axis=-1)`. -/
def positive_only_mse (y_true y_pred : List ℚ) : ℚ :=
  let diff := List.zipWith (fun p t => p - t) y_pred y_true
  let squared := diff.map (fun x => x * x)
  let mask := y_pred.map (fun p => decide (0 ≤ p))
  let masked := List.zipWith (fun s m => s * (if m then 1 else 0)) squared mask
  kMean masked

/-- `losses.masked_mse` numerator (losses.py lines 32-37):
`mask = is_nan(y_true)`; `squared = K.square(y_pred - y_true)`;
`K.sum(K.switch(mask, zeros, squared), axis=-1)`.  The `switch` replaces the
squared difference by 0 exactly at the sentinel (`none`) positions. -/
def masked_mse_numer (y_true : List (Option ℚ)) (y_pred : List ℚ) : ℚ :=
  (List.zipWith
    (fun t p => match t with | none => 0 | some tv => (p - tv) * (p - tv))
    y_true y_pred).sum

/-- `losses.masked_mse` denominator (losses.py line 38):
`n_valid_per_sample = K.sum(K.cast(~mask, dtype="float32"), axis=-1)` —
the number of non-sentinel `y_true` entries, as a float. -/
def n_valid_per_sample (y_true : List (Option ℚ)) : ℚ :=
  (y_true.map (fun t => if t.isSome then (1 : ℚ) else 0)).sum

/-- `losses.masked_mse` (losses.py lines 31-39):
`sum_squared_error / n_valid_per_sample`, with no guard on the
denominator. -/
def masked_mse (y_true : List (Option ℚ)) (y_pred : List ℚ) : ℚ :=
  masked_mse_numer y_true y_pred / n_valid_per_sample y_true

/-- Plain mean squared error over the feature axis (the reference point the
spec compares both masked variants against). -/
def mse (y_true y_pred : List ℚ) : ℚ :=
  kMean (List.zipWith (fun t p => (p - t) * (p - t)) y_true y_pred)

/-- Spec-side rendering of claim C1's formula: per-feature squared
difference with entries at positions where `y_pred < 0` replaced by zero,
then the mean dividing by the full feature count `d`. -/
def specPositiveOnlyMse (y_true y_pred : List ℚ) : ℚ :=
  (List.zipWith (fun t p => if p < 0 then 0 else (p - t) * (p - t))
    y_true y_pred).sum / (y_true.length : ℚ)

/-- Spec-side rendering for claim C2: the squared errors restricted to the
observed (non-sentinel) positions. -/
def observedSqErrors (y_true : List (Option ℚ)) (y_pred : List ℚ) : List ℚ :=
  (List.zip y_true y_pred).filterMap
    (fun tp => tp.1.map (fun tv => (tp.2 - tv) * (tp.2 - tv)))

/-- Spec-side rendering for claim C2: the count of observed (non-sentinel)
positions of `y_true`. -/
def observedCount (y_true : List (Option ℚ)) : Nat :=
  (y_true.filter (fun t => t.isSome)).length

/-!  ## SequenceInput data model (sequence_input.py)

A `conv_filter_sizes` record is a Python dictionary whose integer keys are
filter widths mapping to filter counts, and whose optional string keys
(`"pool_size"`, `"pool_stride"`, `"batch_normalization"`, `"activation"`,
`"dropout"`) carry per-layer overrides; the embedding separates the integer
keys (an insertion-ordered association list) from the five possible
override keys (`Option` fields, `none` = key absent).  `dict.pop(key,
default)` becomes: read the field with `Option.getD default` and set it to
`none`. -/

/-- One element of `conv_filter_sizes`: a `{width: num_filters}` dictionary
with optional per-layer override keys. -/
structure ConvLayerDict where
  filters : List (Nat × Nat)
  pool_size : Option Nat
  pool_stride : Option Nat
  batch_normalization : Option Bool
  activation : Option String
  dropout : Option ℚ
deriving DecidableEq, Repr

/-- A record carrying no per-layer override keys (only integer
filter-width keys). -/
def ConvLayerDict.noOverrides (d : ConvLayerDict) : Bool :=
  d.pool_size.isNone && d.pool_stride.isNone &&
    d.batch_normalization.isNone && d.activation.isNone && d.dropout.isNone

/-- The keyword arguments of `SequenceInput.__init__` (sequence_input.py
lines 31-75).  `mask_zero=None` is `Option Bool`; `conv_weight_source` is
omitted (it only feeds the external graph builder and no claim touches it);
`rnn_layer_sizes` is modelled in its list form (the `isinstance(.., int)`
coercion of `_build_rnn` writes no configuration). -/
structure SequenceInputArgs where
  length : Nat
  name : Option String
  variable_length : Bool
  mask_zero : Option Bool
  encoding : String
  add_start_tokens : Bool
  add_stop_tokens : Bool
  add_normalized_position : Bool
  add_normalized_centrality : Bool
  return_sequences : Bool
  embedding_dim : Int
  embedding_dropout : ℚ
  conv_filter_sizes : List ConvLayerDict
  repeat_conv_layers : Nat
  conv_dropout : ℚ
  conv_batch_normalization : Bool
  conv_activation : String
  pool_size : Nat
  pool_stride : Nat
  rnn_layer_sizes : List Nat
  rnn_type : String
  rnn_bidirectional : Bool
  global_pooling : Bool
  global_pooling_batch_normalization : Bool
  global_pooling_dropout : ℚ
  dense_layer_sizes : List Nat
  dense_activation : String
  dense_dropout : ℚ
  dense_batch_normalization : Bool
  n_highway_layers : Nat
  highway_activation : String
  highway_batch_normalization : Bool
  highway_dropout : ℚ
deriving DecidableEq, Repr

/-- The defaults of `SequenceInput.__init__`'s keyword parameters
(sequence_input.py lines 31-75); `length` has no default. -/
def defaultArgs (length : Nat) : SequenceInputArgs where
  length := length
  name := none
  variable_length := false
  mask_zero := none
  encoding := "onehot"
  add_start_tokens := false
  add_stop_tokens := false
  add_normalized_position := false
  add_normalized_centrality := false
  return_sequences := false
  embedding_dim := 32
  embedding_dropout := 0
  conv_filter_sizes := []
  repeat_conv_layers := 1
  conv_dropout := 0
  conv_batch_normalization := false
  conv_activation := "linear"
  pool_size := 3
  pool_stride := 2
  rnn_layer_sizes := []
  rnn_type := "lstm"
  rnn_bidirectional := true
  global_pooling := false
  global_pooling_batch_normalization := false
  global_pooling_dropout := 0
  dense_layer_sizes := []
  dense_activation := "relu"
  dense_dropout := 0.25
  dense_batch_normalization := false
  n_highway_layers := 0
  highway_activation := "tanh"
  highway_batch_normalization := false
  highway_dropout := 0

/-- Modelled from the spec: the external `Encoder` collaborator's `tokens`
vocabulary (spec section 6; `encoder.py` is not under `src/`).  Its exact
size is not relied on by any theorem below — 20 amino acids plus optional
padding, start and stop tokens is one plausible reading. -/
def encoderNTokens (variable_length add_start add_stop : Bool) : Nat :=
  20 + (cond variable_length 1 0) + (cond add_start 1 0) + (cond add_stop 1 0)

/-- The constructed `SequenceInput` object: the stored keyword arguments
plus the derived fields `padded_length`, `n_symbols`, `extra_input_dims`
and `n_input_dims` (sequence_input.py lines 186-255).  `n_input_dims` is
`Option Nat` because the embedding branch stores Python `None`. -/
structure SequenceInput where
  name : Option String
  length : Nat
  encoding : String
  add_start_tokens : Bool
  add_stop_tokens : Bool
  variable_length : Bool
  padded_length : Nat
  add_normalized_position : Bool
  add_normalized_centrality : Bool
  n_symbols : Nat
  extra_input_dims : Nat
  n_input_dims : Option Nat
  mask_zero : Bool
  return_sequences : Bool
  embedding_dim : Int
  embedding_dropout : ℚ
  conv_filter_sizes : List ConvLayerDict
  repeat_conv_layers : Nat
  conv_dropout : ℚ
  conv_batch_normalization : Bool
  conv_activation : String
  pool_size : Nat
  pool_stride : Nat
  rnn_layer_sizes : List Nat
  rnn_type : String
  rnn_bidirectional : Bool
  global_pooling : Bool
  global_pooling_batch_normalization : Bool
  global_pooling_dropout : ℚ
  dense_layer_sizes : List Nat
  dense_activation : String
  dense_dropout : ℚ
  dense_batch_normalization : Bool
  n_highway_layers : Nat
  highway_activation : String
  highway_batch_normalization : Bool
  highway_dropout : ℚ
deriving DecidableEq, Repr, Inhabited

/-- `SequenceInput.__init__` (sequence_input.py lines 186-255).  In source
order: the encoding membership check (lines 188-189) raises `ValueError`
before any derived field is computed; `padded_length`, the `Encoder`, and
`extra_input_dims` are then derived; the encoding branch (lines 211-217)
sets `n_input_dims`.  In the `"embedding"` branch the source runs
`assert self.extra_input_dims is None` — but `extra_input_dims` always
holds an `int` (line 208), so Python's identity test `is None` is false and
the assert raises `AssertionError` whenever this branch runs; the test is
embedded verbatim as `(some extra_input_dims).isNone`.  Finally `mask_zero`
defaults to `variable_length` when the argument is `None` (lines
219-222). -/
def SequenceInput.init (a : SequenceInputArgs) : Except String SequenceInput :=
  if a.encoding ∈ ["embedding", "onehot", "blosum", "pmbec"] then
    let padded_length :=
      a.length + (cond a.add_start_tokens 1 0) + (cond a.add_stop_tokens 1 0)
    let n_symbols :=
      encoderNTokens a.variable_length a.add_start_tokens a.add_stop_tokens
    let extra_input_dims :=
      (cond a.add_normalized_position 1 0) +
        (cond a.add_normalized_centrality 1 0)
    let n_input_dims_or_assert : Except String (Option Nat) :=
      if a.encoding = "embedding" then
        if (some extra_input_dims : Option Nat).isNone then .ok none
        else .error "AssertionError: self.extra_input_dims is None"
      else if a.encoding = "onehot" then .ok (some (n_symbols + extra_input_dims))
      else .ok (some (20 + extra_input_dims))
    match n_input_dims_or_assert with
    | .error e => .error e
    | .ok n_input_dims =>
      .ok {
        name := a.name
        length := a.length
        encoding := a.encoding
        add_start_tokens := a.add_start_tokens
        add_stop_tokens := a.add_stop_tokens
        variable_length := a.variable_length
        padded_length := padded_length
        add_normalized_position := a.add_normalized_position
        add_normalized_centrality := a.add_normalized_centrality
        n_symbols := n_symbols
        extra_input_dims := extra_input_dims
        n_input_dims := n_input_dims
        mask_zero := a.mask_zero.getD a.variable_length
        return_sequences := a.return_sequences
        embedding_dim := a.embedding_dim
        embedding_dropout := a.embedding_dropout
        conv_filter_sizes := a.conv_filter_sizes
        repeat_conv_layers := a.repeat_conv_layers
        conv_dropout := a.conv_dropout
        conv_batch_normalization := a.conv_batch_normalization
        conv_activation := a.conv_activation
        pool_size := a.pool_size
        pool_stride := a.pool_stride
        rnn_layer_sizes := a.rnn_layer_sizes
        rnn_type := a.rnn_type
        rnn_bidirectional := a.rnn_bidirectional
        global_pooling := a.global_pooling
        global_pooling_batch_normalization := a.global_pooling_batch_normalization
        global_pooling_dropout := a.global_pooling_dropout
        dense_layer_sizes := a.dense_layer_sizes
        dense_activation := a.dense_activation
        dense_dropout := a.dense_dropout
        dense_batch_normalization := a.dense_batch_normalization
        n_highway_layers := a.n_highway_layers
        highway_activation := a.highway_activation
        highway_batch_normalization := a.highway_batch_normalization
        highway_dropout := a.highway_dropout }
  else
    .error ("Invalid encoding: " ++ a.encoding)

/-!  ## The convolution build stage (`_build_conv`, sequence_input.py 282-337)

Graph construction is abstracted to the list of layer operations emitted;
`aligned_convolutions(...)` and `local_max_pooling(...)` become `ConvOp`
constructors carrying the arguments the source passes.  The `dict.pop`
calls mutate the per-layer records in place, and the same record objects
are revisited on every `repeat_conv_layers` iteration, so the record list
is threaded through the recursion as state and `build` returns the
descriptor with its (possibly mutated) `conv_filter_sizes` alongside the
emitted operations.  The other build stages (`_build_input`,
`_build_embedding`, `_build_rnn`, `_build_global_pooling`, `_build_dense`,
`_build_highway`) assign no attribute of `self` and are irrelevant to the
configuration claims. -/

/-- The per-layer parameters resolved by the five `pop` calls
(sequence_input.py lines 305-312). -/
structure ResolvedConv where
  pool_size : Nat
  pool_stride : Nat
  batch_normalization : Bool
  activation : String
  dropout : ℚ
deriving DecidableEq, Repr

/-- A layer operation emitted by `_build_conv`: either
`aligned_convolutions(value, filter_sizes=list(d.keys()), output_dim=d,
dropout, batch_normalization, activation)` or
`local_max_pooling(value, size, stride)`. -/
inductive ConvOp where
  | conv (filter_sizes : List Nat) (output_dim : List (Nat × Nat))
      (dropout : ℚ) (batch_normalization : Bool) (activation : String)
  | maxpool (size stride : Nat)
deriving DecidableEq, Repr

/-- The five `pop(key, stack_default)` calls of sequence_input.py lines
305-312: return the override when the key is present, else the stack-level
default, and remove the key from the record. -/
def popOverrides (s : SequenceInput) (d : ConvLayerDict) :
    ResolvedConv × ConvLayerDict :=
  (⟨d.pool_size.getD s.pool_size,
    d.pool_stride.getD s.pool_stride,
    d.batch_normalization.getD s.conv_batch_normalization,
    d.activation.getD s.conv_activation,
    d.dropout.getD s.conv_dropout⟩,
   ⟨d.filters, none, none, none, none, none⟩)

/-- One pass of the inner `for conv_layer_dict in conv_filter_sizes:` loop
(sequence_input.py lines 298-336): pop the overrides, skip the record if no
filter keys remain (`continue`, line 318), otherwise emit the convolution,
bump `conv_layer_index`, and emit max pooling when `(pool_size > 1 or
pool_stride > 1)` and `conv_layer_index < n_conv_layers` (lines 313,
331-336).  Returns the mutated records, the updated index and the emitted
operations. -/
def convPass (s : SequenceInput) (n_conv_layers : Nat) :
    List ConvLayerDict → Nat → List ConvLayerDict × Nat × List ConvOp
  | [], idx => ([], idx, [])
  | d :: rest, idx =>
    let pr := popOverrides s d
    let r := pr.1
    let d' := pr.2
    let maxpooling := decide (1 < r.pool_size) || decide (1 < r.pool_stride)
    if d'.filters.isEmpty then
      let t := convPass s n_conv_layers rest idx
      (d' :: t.1, t.2.1, t.2.2)
    else
      let ops :=
        ConvOp.conv (d'.filters.map Prod.fst) d'.filters
            r.dropout r.batch_normalization r.activation ::
          (if maxpooling && decide (idx + 1 < n_conv_layers) then
            [ConvOp.maxpool r.pool_size r.pool_stride]
          else [])
      let t := convPass s n_conv_layers rest (idx + 1)
      (d' :: t.1, t.2.1, ops ++ t.2.2)

/-- The outer `for _ in range(self.repeat_conv_layers):` loop
(sequence_input.py line 297), threading the mutated records and
`conv_layer_index` from one repetition into the next (the Python loop
revisits the same dictionary objects). -/
def convRepeats (s : SequenceInput) (n_conv_layers : Nat) :
    Nat → List ConvLayerDict → Nat → List ConvLayerDict × Nat × List ConvOp
  | 0, dicts, idx => (dicts, idx, [])
  | k + 1, dicts, idx =>
    let t := convPass s n_conv_layers dicts idx
    let t2 := convRepeats s n_conv_layers k t.1 t.2.1
    (t2.1, t2.2.1, t.2.2 ++ t2.2.2)

/-- `SequenceInput._build_conv` (sequence_input.py lines 282-337): a falsy
(empty) `conv_filter_sizes` skips the stage entirely;
`n_conv_layers = repeat_conv_layers * len(conv_filter_sizes)` (line 296);
`conv_layer_index` starts at 0 (line 295).  (The `isinstance(.., dict)`
single-record wrapping of lines 284-287 does not arise for the list-typed
field, and `conv_weight_source` is orthogonal to the emitted structure.)
Returns the descriptor carrying the post-build records together with the
emitted operations. -/
def SequenceInput.build_conv (s : SequenceInput) :
    SequenceInput × List ConvOp :=
  if s.conv_filter_sizes.isEmpty then (s, [])
  else
    let n := s.repeat_conv_layers * s.conv_filter_sizes.length
    let t := convRepeats s n s.repeat_conv_layers s.conv_filter_sizes 0
    ({ s with conv_filter_sizes := t.1 }, t.2.2)

/-- `SequenceInput.build` (sequence_input.py lines 386-394) restricted to
its effect on configuration and on the convolution stack: of the seven
stages only `_build_conv` reads or writes `conv_filter_sizes` (via
`dict.pop`), and no stage assigns any attribute of `self`. -/
def SequenceInput.build (s : SequenceInput) : SequenceInput × List ConvOp :=
  s.build_conv

/-!  ## Output descriptor (output.py) -/

/-- What `Output.loss_fn` can return: the repository's own
`positive_only_mse` function, or the result of handing the loss name to
`keras.losses.deserialize` (the external loss registry, consumed
opaquely). -/
inductive LossFn where
  | masked (f : List ℚ → List ℚ → ℚ)
  | kerasRegistry (name : String)

/-- The fields of `Output` that `loss_fn` reads (output.py lines 25-50):
the loss identifier and the `mask_negative` flag. -/
structure Output where
  dim : Nat
  activation : String
  name : Option String
  loss : String
  mask_negative : Bool
deriving DecidableEq, Repr

/-- `Output.loss_fn` (output.py lines 71-84): with `mask_negative` set it
returns `positive_only_mse` when `loss == "mse"` and otherwise raises
`ValueError("No masked loss available for " + loss)` (the source wraps the
name in single quotation marks); with `mask_negative` unset it returns
`keras.losses.deserialize(self.loss)`. -/
def Output.loss_fn (o : Output) : Except String LossFn :=
  if o.mask_negative then
    if o.loss = "mse" then .ok (.masked positive_only_mse)
    else .error ("No masked loss available for " ++ o.loss)
  else
    .ok (.kerasRegistry o.loss)

/-!  ## Text serialization and `SequenceInput.from_dict`
(sequence_input.py 407-418)

The descriptor's configuration mapping holds `conv_filter_sizes` with
integer keys; a round trip through JSON (performed by the external
`serializable` library, spec sections 4.3 and 6) coerces those keys to
their decimal string form while override keys stay strings.  Strings are
modelled as lists of characters, JSON dictionary values as `JsonVal`.
`from_dict` then rebuilds each record as
`{int(k): int(v) for (k, v) in layer_dictionary.items()}` and calls the
constructor with the repaired mapping — so Python's `int(...)` on every
key and value is the code under verification, and the decimal rendering is
modelled from the spec. -/

/-- A JSON dictionary value as `from_dict` can meet it: an integer filter
count, or an override value (bool / string / float). -/
inductive JsonVal where
  | jnat (n : Nat)
  | jbool (b : Bool)
  | jstr (s : List Char)
  | jrat (q : ℚ)
deriving DecidableEq, Repr

/-- Modelled from the spec: the decimal string a text serialization format
coerces an integer dictionary key to (spec section 4.3; the JSON encoder
itself is external). -/
def natToChars (n : Nat) : List Char :=
  if n = 0 then ['0'] else ((Nat.digits 10 n).reverse.map Nat.digitChar)

/-- Python's `int(...)` applied to a string: fails unless the (non-empty)
string consists of decimal digits, otherwise folds them most significant
first.  (Signs and surrounding whitespace never occur in serialized keys
and are not modelled.) -/
def pyIntChars (cs : List Char) : Except String Nat :=
  if cs.isEmpty then .error "invalid literal for int"
  else if cs.all Char.isDigit then
    .ok (cs.foldl (fun acc c => acc * 10 + (c.toNat - 48)) 0)
  else .error "invalid literal for int"

/-- Python's `int(...)` applied to a JSON dictionary value: the identity on
integers, 0/1 on booleans, decimal parsing on strings, truncation on
floats (all non-negative in serialized configurations). -/
def pyIntVal : JsonVal → Except String Nat
  | .jnat n => .ok n
  | .jbool b => .ok (cond b 1 0)
  | .jstr s => pyIntChars s
  | .jrat q => .ok q.floor.toNat

/-- The JSON image of one `conv_filter_sizes` record: integer keys
stringified (in insertion order), each present override key following as
its literal string with its value. -/
def serializeConvDict (d : ConvLayerDict) : List (List Char × JsonVal) :=
  d.filters.map (fun wc => (natToChars wc.1, JsonVal.jnat wc.2)) ++
    (match d.pool_size with
      | some v => [("pool_size".toList, JsonVal.jnat v)] | none => []) ++
    (match d.pool_stride with
      | some v => [("pool_stride".toList, JsonVal.jnat v)] | none => []) ++
    (match d.batch_normalization with
      | some v => [("batch_normalization".toList, JsonVal.jbool v)] | none => []) ++
    (match d.activation with
      | some v => [("activation".toList, JsonVal.jstr v.toList)] | none => []) ++
    (match d.dropout with
      | some v => [("dropout".toList, JsonVal.jrat v)] | none => [])

/-- The JSON image of the whole `conv_filter_sizes` list. -/
def serializeConvFS (cfs : List ConvLayerDict) :
    List (List (List Char × JsonVal)) :=
  cfs.map serializeConvDict

/-- `int(k), int(v)` over a dictionary's items, left to right, raising at
the first non-integer key or value. -/
def pyIntItems : List (List Char × JsonVal) → Except String (List (Nat × Nat))
  | [] => .ok []
  | kv :: rest =>
    match pyIntChars kv.1 with
    | .error e => .error e
    | .ok k =>
      match pyIntVal kv.2 with
      | .error e => .error e
      | .ok v =>
        match pyIntItems rest with
        | .error e => .error e
        | .ok tail => .ok ((k, v) :: tail)

/-- The dictionary comprehension of `from_dict` (sequence_input.py line
416) on one record: `{int(k): int(v) for (k, v) in
layer_dictionary.items()}` — every key and every value must parse as an
integer or the comprehension raises; the repaired record carries only
integer keys. -/
def fixupConvDict (items : List (List Char × JsonVal)) :
    Except String ConvLayerDict :=
  (pyIntItems items).map (fun filters => ⟨filters, none, none, none, none, none⟩)

/-- The loop of `from_dict` (sequence_input.py lines 413-416) over all
serialized records. -/
def fixupConvFS : List (List (List Char × JsonVal)) →
    Except String (List ConvLayerDict)
  | [] => .ok []
  | items :: rest =>
    match fixupConvDict items with
    | .error e => .error e
    | .ok d =>
      match fixupConvFS rest with
      | .error e => .error e
      | .ok ds => .ok (d :: ds)

/-- `SequenceInput.from_dict` (sequence_input.py lines 407-418): repair the
serialized `conv_filter_sizes`, put it back into the configuration mapping,
and call the constructor with it. -/
def SequenceInput.from_dict (cfg : SequenceInputArgs)
    (serialized_cfs : List (List (List Char × JsonVal))) :
    Except String SequenceInput :=
  match fixupConvFS serialized_cfs with
  | .error e => .error e
  | .ok cfs => SequenceInput.init { cfg with conv_filter_sizes := cfs }

/-- Modelled from the spec: the external `Serializable` base class's
`to_dict` (spec sections 4.3 and 6) reads the constructor keyword
arguments back off the descriptor's attributes, all of which the
constructor stored verbatim.  `mask_zero` comes back as the resolved
boolean. -/
def SequenceInput.to_dict (s : SequenceInput) : SequenceInputArgs where
  length := s.length
  name := s.name
  variable_length := s.variable_length
  mask_zero := some s.mask_zero
  encoding := s.encoding
  add_start_tokens := s.add_start_tokens
  add_stop_tokens := s.add_stop_tokens
  add_normalized_position := s.add_normalized_position
  add_normalized_centrality := s.add_normalized_centrality
  return_sequences := s.return_sequences
  embedding_dim := s.embedding_dim
  embedding_dropout := s.embedding_dropout
  conv_filter_sizes := s.conv_filter_sizes
  repeat_conv_layers := s.repeat_conv_layers
  conv_dropout := s.conv_dropout
  conv_batch_normalization := s.conv_batch_normalization
  conv_activation := s.conv_activation
  pool_size := s.pool_size
  pool_stride := s.pool_stride
  rnn_layer_sizes := s.rnn_layer_sizes
  rnn_type := s.rnn_type
  rnn_bidirectional := s.rnn_bidirectional
  global_pooling := s.global_pooling
  global_pooling_batch_normalization := s.global_pooling_batch_normalization
  global_pooling_dropout := s.global_pooling_dropout
  dense_layer_sizes := s.dense_layer_sizes
  dense_activation := s.dense_activation
  dense_dropout := s.dense_dropout
  dense_batch_normalization := s.dense_batch_normalization
  n_highway_layers := s.n_highway_layers
  highway_activation := s.highway_activation
  highway_batch_normalization := s.highway_batch_normalization
  highway_dropout := s.highway_dropout

/-!  ## Helper lemmas for the loss theorems -/

/-- The masked squared-difference list built by `positive_only_mse` is the
per-position "zero where the prediction is negative" list of the spec. -/
theorem posOnly_masked_eq (yt yp : List ℚ) :
    List.zipWith (fun s m => s * (if m then (1 : ℚ) else 0))
      ((List.zipWith (fun p t => p - t) yp yt).map (fun x => x * x))
      (yp.map (fun p => decide (0 ≤ p)))
    = List.zipWith (fun t p => if p < 0 then 0 else (p - t) * (p - t)) yt yp := by
  induction yp generalizing yt with
  | nil => cases yt <;> rfl
  | cons p yp ih =>
    cases yt with
    | nil => rfl
    | cons t yt =>
      simp only [List.zipWith_cons_cons, List.map_cons, List.cons.injEq]
      refine ⟨?_, ih yt⟩
      rcases lt_or_le p 0 with hp | hp
      · simp [hp, not_le.mpr hp]
      · simp [hp, not_lt.mpr hp]

/-- When every prediction is negative the spec-side summand list is all
zeros. -/
theorem specPos_sum_all_neg (yt yp : List ℚ) (h : ∀ p ∈ yp, p < 0) :
    (List.zipWith (fun t p => if p < 0 then 0 else (p - t) * (p - t))
      yt yp).sum = 0 := by
  induction yp generalizing yt with
  | nil => cases yt <;> rfl
  | cons p yp ih =>
    cases yt with
    | nil => rfl
    | cons t yt =>
      have hp : p < 0 := h p (List.mem_cons_self p yp)
      simp only [List.zipWith_cons_cons, List.sum_cons, if_pos hp,
        ih yt (fun q hq => h q (List.mem_cons_of_mem p hq))]
      ring

/-- When no prediction is negative the spec-side summands are the plain
squared differences. -/
theorem specPos_eq_sq_of_nonneg (yt yp : List ℚ) (h : ∀ p ∈ yp, 0 ≤ p) :
    List.zipWith (fun t p => if p < 0 then 0 else (p - t) * (p - t)) yt yp
    = List.zipWith (fun t p => (p - t) * (p - t)) yt yp := by
  induction yp generalizing yt with
  | nil => cases yt <;> rfl
  | cons p yp ih =>
    cases yt with
    | nil => rfl
    | cons t yt =>
      simp only [List.zipWith_cons_cons, List.cons.injEq]
      exact ⟨if_neg (not_lt.mpr (h p (List.mem_cons_self p yp))),
        ih yt (fun q hq => h q (List.mem_cons_of_mem p hq))⟩

/-- The masked numerator of `masked_mse` is the sum of the squared errors
at the observed positions. -/
theorem masked_mse_numer_eq_observed (yt : List (Option ℚ)) (yp : List ℚ) :
    masked_mse_numer yt yp = (observedSqErrors yt yp).sum := by
  induction yt generalizing yp with
  | nil => cases yp <;> rfl
  | cons t yt ih =>
    cases yp with
    | nil => rfl
    | cons p yp =>
      cases t with
      | none =>
        simp only [masked_mse_numer, observedSqErrors, List.zip_cons_cons,
          List.filterMap_cons, List.zipWith_cons_cons, List.sum_cons] at *
        simpa using ih yp
      | some tv =>
        simp only [masked_mse_numer, observedSqErrors, List.zip_cons_cons,
          List.filterMap_cons, List.zipWith_cons_cons, List.sum_cons,
          Option.map_some'] at *
        simp [ih yp]

/-- The float-cast valid count of `masked_mse` is the number of observed
positions. -/
theorem n_valid_eq_observedCount (yt : List (Option ℚ)) :
    n_valid_per_sample yt = (observedCount yt : ℚ) := by
  induction yt with
  | nil => rfl
  | cons t yt ih =>
    cases t with
    | none => simpa [n_valid_per_sample, observedCount, List.filter_cons] using ih
    | some tv =>
      simp only [n_valid_per_sample, observedCount, List.filter_cons,
        List.map_cons, List.sum_cons] at *
      simp [ih]
      ring

/-!  ## Claim theorems: loss functions -/

/-- C1.  `positive_only_mse` equals the per-sample mean over the feature
axis of the squared differences with entries at positions where
`y_pred < 0` replaced by zero, always dividing by the full feature count;
hence an all-negative prediction gives loss 0 and a nowhere-negative
prediction gives the plain mean squared error. -/
theorem positive_only_mse_matches_spec (y_true y_pred : List ℚ)
    (h : y_true.length = y_pred.length) :
    positive_only_mse y_true y_pred = specPositiveOnlyMse y_true y_pred
    ∧ ((∀ p ∈ y_pred, p < 0) → positive_only_mse y_true y_pred = 0)
    ∧ ((∀ p ∈ y_pred, 0 ≤ p) →
        positive_only_mse y_true y_pred = mse y_true y_pred) := by
  have hmain :
      positive_only_mse y_true y_pred = specPositiveOnlyMse y_true y_pred := by
    simp only [positive_only_mse, specPositiveOnlyMse, kMean]
    rw [posOnly_masked_eq, List.length_zipWith, h, min_self]
  refine ⟨hmain, ?_, ?_⟩
  · intro hneg
    rw [hmain]
    unfold specPositiveOnlyMse
    rw [specPos_sum_all_neg y_true y_pred hneg, zero_div]
  · intro hpos
    rw [hmain]
    simp only [specPositiveOnlyMse, mse, kMean]
    rw [specPos_eq_sq_of_nonneg y_true y_pred hpos, List.length_zipWith,
      h, min_self]

/-- C1 witness: the theorem instantiated at `y_true = [1, 2]`,
`y_pred = [3, -4]`. -/
theorem positive_only_mse_matches_spec_witness :
    ([(1 : ℚ), 2] : List ℚ).length = ([(3 : ℚ), -4] : List ℚ).length
    ∧ positive_only_mse [1, 2] [3, -4] = specPositiveOnlyMse [1, 2] [3, -4] :=
  ⟨rfl, (positive_only_mse_matches_spec [1, 2] [3, -4] rfl).1⟩

/-- C2.  With at least one observed (non-sentinel) entry per sample,
`masked_mse` is the sum of squared errors over the observed positions
divided by the count of observed positions; when no entry is the sentinel
it is the plain mean squared error over the feature axis. -/
theorem masked_mse_matches_spec (y_true : List (Option ℚ)) (y_pred : List ℚ)
    (h : y_true.length = y_pred.length) (hobs : 0 < observedCount y_true) :
    masked_mse y_true y_pred
      = (observedSqErrors y_true y_pred).sum / (observedCount y_true : ℚ)
    ∧ ∀ yt : List ℚ, y_true = yt.map some →
        masked_mse y_true y_pred = mse yt y_pred := by
  refine ⟨?_, ?_⟩
  · unfold masked_mse
    rw [masked_mse_numer_eq_observed, n_valid_eq_observedCount]
  · rintro yt rfl
    unfold masked_mse mse kMean
    rw [n_valid_eq_observedCount]
    have hcount : observedCount (yt.map some) = yt.length := by
      unfold observedCount
      rw [List.filter_map]
      simp [Function.comp]
    have hlen : yt.length = y_pred.length := by
      simpa using h
    have hnum :
        masked_mse_numer (yt.map some) y_pred
        = (List.zipWith (fun t p => (p - t) * (p - t)) yt y_pred).sum := by
      unfold masked_mse_numer
      rw [List.zipWith_map_left]
    rw [hnum, hcount, List.length_zipWith, hlen, min_self]

/-- C2 witness: the theorem instantiated at
`y_true = [some 1, none, some 2]`, `y_pred = [3, 100, 4]`. -/
theorem masked_mse_matches_spec_witness :
    ([some (1 : ℚ), none, some 2] : List (Option ℚ)).length
        = ([(3 : ℚ), 100, 4] : List ℚ).length
    ∧ 0 < observedCount [some (1 : ℚ), none, some 2]
    ∧ masked_mse [some (1 : ℚ), none, some 2] [3, 100, 4]
        = (observedSqErrors [some (1 : ℚ), none, some 2] [3, 100, 4]).sum
            / (observedCount [some (1 : ℚ), none, some 2] : ℚ) :=
  ⟨rfl, by decide,
    (masked_mse_matches_spec [some 1, none, some 2] [3, 100, 4] rfl
      (by decide)).1⟩

/-- C7.  `masked_mse` divides by the valid count with no guard: for a
sample whose `y_true` entries are all the sentinel the denominator is 0,
and with at least one observed entry the denominator is positive, so the
stated precondition makes the zero-denominator case unreachable.  (In this
rational embedding the unguarded `x / 0` denotes 0 where IEEE floats
produce NaN; the zero denominator itself is the verified content.) -/
theorem masked_mse_denominator_unguarded (y_true : List (Option ℚ))
    (y_pred : List ℚ) :
    masked_mse y_true y_pred
      = masked_mse_numer y_true y_pred / n_valid_per_sample y_true
    ∧ ((∀ t ∈ y_true, t = none) → n_valid_per_sample y_true = 0)
    ∧ ((∃ t ∈ y_true, t.isSome) → 0 < n_valid_per_sample y_true) := by
  refine ⟨rfl, ?_, ?_⟩
  · intro hall
    rw [n_valid_eq_observedCount]
    have : observedCount y_true = 0 := by
      unfold observedCount
      rw [List.length_eq_zero, List.filter_eq_nil_iff]
      intro t ht
      rw [hall t ht]
      decide
    rw [this, Nat.cast_zero]
  · rintro ⟨t, ht, hsome⟩
    rw [n_valid_eq_observedCount]
    have : t ∈ (y_true.filter (fun t => t.isSome)) :=
      List.mem_filter.mpr ⟨ht, hsome⟩
    have hlen : 0 < observedCount y_true :=
      List.length_pos.mpr (List.ne_nil_of_mem this)
    exact_mod_cast hlen

/-- C7 witness: the all-sentinel denominator at `[none, none]` and the
positive denominator at `[some 1]`. -/
theorem masked_mse_denominator_unguarded_witness :
    n_valid_per_sample [none, none] = 0
    ∧ 0 < n_valid_per_sample [some (1 : ℚ)] :=
  ⟨(masked_mse_denominator_unguarded [none, none] []).2.1 (by decide),
    (masked_mse_denominator_unguarded [some 1] [2]).2.2 (by decide)⟩

/-- C6.  `Output.loss_fn` returns the positive-only MSE function when
`mask_negative` is set and `loss == "mse"`, raises the configuration error
naming the unsupported loss for any other name with masking requested, and
resolves the name through the Keras loss registry when `mask_negative` is
unset. -/
theorem loss_fn_resolution (o : Output) :
    (o.mask_negative = true → o.loss = "mse" →
      o.loss_fn = .ok (.masked positive_only_mse))
    ∧ (o.mask_negative = true → o.loss ≠ "mse" →
      o.loss_fn = .error ("No masked loss available for " ++ o.loss))
    ∧ (o.mask_negative = false →
      o.loss_fn = .ok (.kerasRegistry o.loss)) := by
  refine ⟨?_, ?_, ?_⟩
  · intro hm hl
    simp [Output.loss_fn, hm, hl]
  · intro hm hl
    simp [Output.loss_fn, hm, hl]
  · intro hm
    simp [Output.loss_fn, hm]

/-- C6 witness: the theorem instantiated at the spec's failing example
`mask_negative=True, loss="binary_crossentropy"`, at the supported
`mask_negative=True, loss="mse"`, and at an unmasked output. -/
theorem loss_fn_resolution_witness :
    Output.loss_fn ⟨1, "linear", none, "binary_crossentropy", true⟩
      = .error ("No masked loss available for " ++ "binary_crossentropy")
    ∧ Output.loss_fn ⟨1, "linear", none, "mse", true⟩
      = .ok (.masked positive_only_mse)
    ∧ Output.loss_fn ⟨1, "linear", none, "mse", false⟩
      = .ok (.kerasRegistry "mse") :=
  ⟨(loss_fn_resolution _).2.1 rfl (by decide),
    (loss_fn_resolution _).1 rfl rfl,
    (loss_fn_resolution _).2.2 rfl⟩

/-!  ## Helper lemmas and claim theorems: construction -/

/-- Every field the constructor stores verbatim really is stored verbatim
on the success path; recorded for `mask_zero` and `conv_filter_sizes`,
the two stored fields the claims read back. -/
theorem init_ok_fields (a : SequenceInputArgs) (s : SequenceInput)
    (h : SequenceInput.init a = .ok s) :
    s.mask_zero = a.mask_zero.getD a.variable_length
    ∧ s.conv_filter_sizes = a.conv_filter_sizes := by
  simp only [SequenceInput.init] at h
  repeat' split at h
  all_goals
    first
      | exact Except.noConfusion h
      | · injection h with h'
          subst h'
          exact ⟨rfl, rfl⟩

/-- C9.  An `encoding` outside `{"embedding", "onehot", "blosum",
"pmbec"}` makes construction fail immediately with `ValueError`, whatever
the other arguments are — before any derived field is computed. -/
theorem invalid_encoding_rejected (a : SequenceInputArgs)
    (h : a.encoding ∉ ["embedding", "onehot", "blosum", "pmbec"]) :
    SequenceInput.init a = .error ("Invalid encoding: " ++ a.encoding) := by
  simp only [SequenceInput.init]
  rw [if_neg h]

/-- C9 witness: the spec's example `encoding="xyz"`. -/
theorem invalid_encoding_rejected_witness :
    "xyz" ∉ (["embedding", "onehot", "blosum", "pmbec"] : List String)
    ∧ SequenceInput.init { defaultArgs 9 with encoding := "xyz" }
        = .error ("Invalid encoding: " ++ "xyz") :=
  ⟨by decide, invalid_encoding_rejected _ (by decide)⟩

/-- C3 (the code's actual behaviour at the claim's inputs).  The
`"embedding"` branch stores `None` into `n_input_dims` and then runs
`assert self.extra_input_dims is None`; since `extra_input_dims` always
holds an `int`, the assert fails for every argument combination — with
both augmentation flags unset (where the claim says construction
succeeds) just as with `add_normalized_position=True`. -/
theorem embedding_assert_always_fires :
    SequenceInput.init { defaultArgs 9 with encoding := "embedding" }
      = .error "AssertionError: self.extra_input_dims is None"
    ∧ SequenceInput.init
        { defaultArgs 9 with
          encoding := "embedding"
          add_normalized_position := true }
      = .error "AssertionError: self.extra_input_dims is None"
    ∧ SequenceInput.init
        { defaultArgs 9 with
          encoding := "embedding"
          add_normalized_centrality := true }
      = .error "AssertionError: self.extra_input_dims is None" :=
  ⟨rfl, rfl, rfl⟩

/-- C10.  On every successful construction, an omitted (`None`)
`mask_zero` argument defaults to `variable_length`, and an explicit
boolean is stored unchanged. -/
theorem mask_zero_default (a : SequenceInputArgs) (s : SequenceInput)
    (h : SequenceInput.init a = .ok s) :
    (a.mask_zero = none → s.mask_zero = a.variable_length)
    ∧ ∀ b, a.mask_zero = some b → s.mask_zero = b := by
  have hm := (init_ok_fields a s h).1
  constructor
  · intro hn
    rw [hm, hn]
    rfl
  · intro b hb
    rw [hm, hb]
    rfl

/-- The descriptor a successful construction returns (`default` is never
reached on the success path; it only makes the projection total). -/
def builtOf (a : SequenceInputArgs) : SequenceInput :=
  (SequenceInput.init a).toOption.getD default

/-- `length=9, variable_length=True`, `mask_zero` omitted. -/
def c10argOmitted : SequenceInputArgs :=
  { defaultArgs 9 with variable_length := true }

/-- `length=9, variable_length=True, mask_zero=False`. -/
def c10argExplicit : SequenceInputArgs :=
  { defaultArgs 9 with variable_length := true, mask_zero := some false }

/-- C10 witness: `variable_length=True` with `mask_zero` omitted defaults
to `True`; an explicit `mask_zero=False` survives `variable_length=True`
unchanged. -/
theorem mask_zero_default_witness :
    SequenceInput.init c10argOmitted = .ok (builtOf c10argOmitted)
    ∧ (builtOf c10argOmitted).mask_zero = true
    ∧ SequenceInput.init c10argExplicit = .ok (builtOf c10argExplicit)
    ∧ (builtOf c10argExplicit).mask_zero = false :=
  ⟨rfl,
    (mask_zero_default c10argOmitted (builtOf c10argOmitted) rfl).1 rfl,
    rfl,
    (mask_zero_default c10argExplicit (builtOf c10argExplicit) rfl).2
      false rfl⟩

/-!  ## Helper lemmas and claim theorems: the convolution stack -/

/-- Popping always leaves a record with no override keys. -/
theorem popOverrides_snd_noOv (s : SequenceInput) (d : ConvLayerDict) :
    ((popOverrides s d).2).noOverrides = true := rfl

/-- Popping a record that has no override keys returns it unchanged. -/
theorem popOverrides_snd_of_noOv (s : SequenceInput) (d : ConvLayerDict)
    (h : d.noOverrides = true) : (popOverrides s d).2 = d := by
  cases d with
  | mk f ps pstr bn act dr =>
    simp only [ConvLayerDict.noOverrides, Bool.and_eq_true,
      Option.isNone_iff_eq_none] at h
    obtain ⟨⟨⟨⟨h1, h2⟩, h3⟩, h4⟩, h5⟩ := h
    subst h1 h2 h3 h4 h5
    rfl

/-- One pass over records without override keys leaves them unchanged. -/
theorem convPass_dicts_of_noOv (s : SequenceInput) (n : Nat) :
    ∀ (dicts : List ConvLayerDict) (idx : Nat),
      (∀ d ∈ dicts, d.noOverrides = true) →
        (convPass s n dicts idx).1 = dicts := by
  intro dicts
  induction dicts with
  | nil => intro idx h; rfl
  | cons d rest ih =>
    intro idx h
    have hd := popOverrides_snd_of_noOv s d (h d (List.mem_cons_self d rest))
    have hrest := fun d' hm => h d' (List.mem_cons_of_mem d hm)
    simp only [convPass, hd]
    split
    · simp [ih idx hrest]
    · simp [ih (idx + 1) hrest]

/-- After one pass every record has its override keys removed. -/
theorem convPass_dicts_noOv (s : SequenceInput) (n : Nat) :
    ∀ (dicts : List ConvLayerDict) (idx : Nat),
      ∀ d ∈ (convPass s n dicts idx).1, d.noOverrides = true := by
  intro dicts
  induction dicts with
  | nil => intro idx d hd; cases hd
  | cons d0 rest ih =>
    intro idx d hd
    simp only [convPass] at hd
    by_cases hb : (popOverrides s d0).2.filters.isEmpty = true
    · rw [if_pos hb] at hd
      rcases List.mem_cons.mp hd with rfl | hm
      · exact popOverrides_snd_noOv s d0
      · exact ih idx d hm
    · rw [if_neg hb] at hd
      rcases List.mem_cons.mp hd with rfl | hm
      · exact popOverrides_snd_noOv s d0
      · exact ih (idx + 1) d hm

/-- The repeated passes leave override-free records unchanged. -/
theorem convRepeats_dicts_of_noOv (s : SequenceInput) (n : Nat) :
    ∀ (k : Nat) (dicts : List ConvLayerDict) (idx : Nat),
      (∀ d ∈ dicts, d.noOverrides = true) →
        (convRepeats s n k dicts idx).1 = dicts := by
  intro k
  induction k with
  | zero => intro dicts idx h; rfl
  | succ k ih =>
    intro dicts idx h
    simp only [convRepeats, convPass_dicts_of_noOv s n dicts idx h]
    exact ih dicts _ h

/-- After at least one repetition every record is override-free. -/
theorem convRepeats_dicts_noOv (s : SequenceInput) (n : Nat) :
    ∀ (k : Nat) (dicts : List ConvLayerDict) (idx : Nat),
      ∀ d ∈ (convRepeats s n (k + 1) dicts idx).1, d.noOverrides = true := by
  intro k
  induction k with
  | zero =>
    intro dicts idx d hd
    simp only [convRepeats] at hd
    exact convPass_dicts_noOv s n dicts idx d hd
  | succ k ih =>
    intro dicts idx d hd
    have : convRepeats s n (k + 1 + 1) dicts idx
        = (let t := convPass s n dicts idx
           let t2 := convRepeats s n (k + 1) t.1 t.2.1
           (t2.1, t2.2.1, t.2.2 ++ t2.2.2)) := rfl
    rw [this] at hd
    exact ih _ _ d hd

/-- A pass never changes the number of records. -/
theorem convPass_length (s : SequenceInput) (n : Nat) :
    ∀ (dicts : List ConvLayerDict) (idx : Nat),
      (convPass s n dicts idx).1.length = dicts.length := by
  intro dicts
  induction dicts with
  | nil => intro idx; rfl
  | cons d rest ih =>
    intro idx
    simp only [convPass]
    split
    · simp [ih idx]
    · simp [ih (idx + 1)]

/-- Repeated passes never change the number of records. -/
theorem convRepeats_length (s : SequenceInput) (n : Nat) :
    ∀ (k : Nat) (dicts : List ConvLayerDict) (idx : Nat),
      (convRepeats s n k dicts idx).1.length = dicts.length := by
  intro k
  induction k with
  | zero => intro dicts idx; rfl
  | succ k ih =>
    intro dicts idx
    simp only [convRepeats]
    rw [ih, convPass_length]

/-- The configuration component of `build`: the descriptor is unchanged
except that `conv_filter_sizes` carries the records as the repeated
passes leave them (and is untouched when falsy/empty). -/
theorem build_fst_eq (s : SequenceInput) :
    (SequenceInput.build s).1 =
      if s.conv_filter_sizes.isEmpty then s
      else { s with conv_filter_sizes :=
        (convRepeats s (s.repeat_conv_layers * s.conv_filter_sizes.length)
          s.repeat_conv_layers s.conv_filter_sizes 0).1 } := by
  by_cases hb : s.conv_filter_sizes.isEmpty = true
  · simp [SequenceInput.build, SequenceInput.build_conv, hb]
  · simp [SequenceInput.build, SequenceInput.build_conv, hb]

/-- A descriptor whose records carry no override keys is returned by
`build` with its configuration identical. -/
theorem build_fst_of_noOv (s : SequenceInput)
    (h : ∀ d ∈ s.conv_filter_sizes, d.noOverrides = true) :
    (SequenceInput.build s).1 = s := by
  rw [build_fst_eq]
  by_cases hb : s.conv_filter_sizes.isEmpty = true
  · rw [if_pos hb]
  · rw [if_neg hb,
      convRepeats_dicts_of_noOv s _ s.repeat_conv_layers
        s.conv_filter_sizes 0 h]

/-- After one `build` either every record is override-free or the
configuration was not touched at all (empty stack or zero repeats). -/
theorem build_fst_noOv_or_eq (s : SequenceInput) :
    (∀ d ∈ (SequenceInput.build s).1.conv_filter_sizes,
      d.noOverrides = true)
    ∨ (SequenceInput.build s).1 = s := by
  by_cases hb : s.conv_filter_sizes.isEmpty = true
  · right
    rw [build_fst_eq, if_pos hb]
  · rcases hk : s.repeat_conv_layers with _ | k
    · right
      rw [build_fst_eq, if_neg hb]
      have e : (convRepeats s
          (s.repeat_conv_layers * s.conv_filter_sizes.length)
          s.repeat_conv_layers s.conv_filter_sizes 0).1
          = s.conv_filter_sizes := by
        rw [hk]
        rfl
      rw [e]
    · left
      intro d hd
      rw [build_fst_eq, if_neg hb, hk] at hd
      exact convRepeats_dicts_noOv s _ k s.conv_filter_sizes 0 d hd

/-- C4 (amended).  `build()` never touches any configuration field except
`conv_filter_sizes`; a descriptor whose records carry no per-layer
override keys comes back from `build()` with its configuration identical,
and from the second call onward `build()` is idempotent with respect to
configuration.  (The unamended claim — override keys survive `build()` —
is refuted by `build_mutates_overridden_record`: the `dict.pop` calls of
`_build_conv` delete them on the first build.) -/
theorem build_config_effect (s : SequenceInput) :
    ((∀ d ∈ s.conv_filter_sizes, d.noOverrides = true) →
      (SequenceInput.build s).1 = s)
    ∧ (SequenceInput.build (SequenceInput.build s).1).1
        = (SequenceInput.build s).1 := by
  refine ⟨build_fst_of_noOv s, ?_⟩
  rcases build_fst_noOv_or_eq s with h | h
  · exact build_fst_of_noOv _ h
  · rw [h]
    exact h

/-- A descriptor whose single conv record carries the per-layer override
key `pool_size` (`conv_filter_sizes=[{3: 16, "pool_size": 2}]`). -/
def c4overridden : SequenceInput :=
  builtOf { defaultArgs 9 with
    conv_filter_sizes := [⟨[(3, 16)], some 2, none, none, none, none⟩] }

/-- C4 counterexample: `build()` does not leave the configuration
unchanged — the first build pops the `pool_size` override key out of the
record, so the per-layer records differ after `build()`. -/
theorem build_mutates_overridden_record :
    (SequenceInput.build c4overridden).1.conv_filter_sizes
      ≠ c4overridden.conv_filter_sizes
    ∧ c4overridden.conv_filter_sizes
      = [⟨[(3, 16)], some 2, none, none, none, none⟩]
    ∧ (SequenceInput.build c4overridden).1.conv_filter_sizes
      = [⟨[(3, 16)], none, none, none, none, none⟩] := by
  refine ⟨?_, rfl, rfl⟩
  decide

/-- A descriptor with an override-free conv stack
(`conv_filter_sizes=[{3: 16}]`). -/
def c4plain : SequenceInput :=
  builtOf { defaultArgs 9 with
    conv_filter_sizes := [⟨[(3, 16)], none, none, none, none, none⟩] }

/-- C4 witness: the amended theorem instantiated at the override-free
descriptor, whose configuration `build()` leaves unchanged. -/
theorem build_config_effect_witness :
    (c4plain.conv_filter_sizes.all ConvLayerDict.noOverrides) = true
    ∧ (SequenceInput.build c4plain).1 = c4plain
    ∧ (SequenceInput.build (SequenceInput.build c4plain).1).1
        = (SequenceInput.build c4plain).1 :=
  ⟨by decide,
    (build_config_effect c4plain).1 (by decide),
    (build_config_effect c4plain).2⟩

/-- A descriptor whose conv stack holds one applied record
(`{3: 16}`) followed by an empty record (`{}`), the latter skipped by
`_build_conv`; the stack-level defaults `pool_size=3, pool_stride=2`
enable max pooling. -/
def c5skip : SequenceInput :=
  builtOf { defaultArgs 9 with
    conv_filter_sizes := [⟨[(3, 16)], none, none, none, none, none⟩,
      ⟨[], none, none, none, none, none⟩] }

/-- C5 (the code's actual behaviour at the claim's inputs).  With a
skipped record, `n_conv_layers = repeat_conv_layers * len(conv_filter_sizes)`
still counts the skipped slot, so the guard `conv_layer_index <
n_conv_layers` (1 < 2) also fires after the last applied convolution: the
emitted stack is `[conv, maxpool]`, max pooling following the last (and
only) applied convolutional layer — contradicting both the claim and the
source's own comment "add max pooling for all layers before the last". -/
theorem maxpool_follows_last_conv_when_record_skipped :
    (SequenceInput.build c5skip).2
      = [ConvOp.conv [3] [(3, 16)] 0 false "linear", ConvOp.maxpool 3 2]
    ∧ (SequenceInput.build c5skip).2.getLast?
      = some (ConvOp.maxpool 3 2) :=
  ⟨rfl, rfl⟩

/-!  ## Helper lemmas and claim theorems: serialization round trip -/

/-- A decimal digit renders to its digit character and parses back. -/
theorem digitChar_toNat_sub (d : Nat) (h : d < 10) :
    (Nat.digitChar d).toNat - 48 = d := by
  interval_cases d <;> rfl

/-- A decimal digit renders to a character `Char.isDigit` accepts. -/
theorem digitChar_isDigit (d : Nat) (h : d < 10) :
    (Nat.digitChar d).isDigit = true := by
  interval_cases d <;> decide

/-- Folding the big-endian digit characters of a digit list accumulates
exactly the little-endian value `Nat.ofDigits 10` shifted under the
accumulator. -/
theorem foldl_digitChars (L : List Nat) (h : ∀ d ∈ L, d < 10) (a : Nat) :
    (L.reverse.map Nat.digitChar).foldl
        (fun acc c => acc * 10 + (c.toNat - 48)) a
      = a * 10 ^ L.length + Nat.ofDigits 10 L := by
  induction L generalizing a with
  | nil => simp
  | cons d L ih =>
    have hd : d < 10 := h d (List.mem_cons_self d L)
    have hL : ∀ x ∈ L, x < 10 := fun x hx => h x (List.mem_cons_of_mem d hx)
    simp only [List.reverse_cons, List.map_append, List.foldl_append,
      List.map_cons, List.map_nil, List.foldl_cons, List.foldl_nil]
    rw [ih hL a, digitChar_toNat_sub d hd, Nat.ofDigits_cons,
      List.length_cons, pow_succ]
    ring

/-- Python's `int(...)` inverts the decimal rendering of any natural
number (the repaired key equals the original integer key). -/
theorem pyInt_natToChars (n : Nat) : pyIntChars (natToChars n) = .ok n := by
  by_cases h0 : n = 0
  · subst h0
    rfl
  · have hne : Nat.digits 10 n ≠ [] := Nat.digits_ne_nil_iff_ne_zero.mpr h0
    have hbound : ∀ d ∈ Nat.digits 10 n, d < 10 :=
      fun d hd => Nat.digits_lt_base (by norm_num) hd
    have hisEmpty :
        ((Nat.digits 10 n).reverse.map Nat.digitChar).isEmpty = false := by
      simp [List.isEmpty_iff, hne]
    have hall :
        ((Nat.digits 10 n).reverse.map Nat.digitChar).all Char.isDigit
          = true := by
      rw [List.all_eq_true]
      intro c hc
      rw [List.mem_map] at hc
      obtain ⟨d, hd, rfl⟩ := hc
      rw [List.mem_reverse] at hd
      exact digitChar_isDigit d (hbound d hd)
    rw [natToChars, if_neg h0, pyIntChars]
    rw [if_neg (by simp [hne]), if_pos hall]
    rw [foldl_digitChars (Nat.digits 10 n) hbound 0, Nat.ofDigits_digits]
    simp

/-- The serialized integer-key items of a record parse back to the
original filter association list. -/
theorem pyIntItems_serialized (f : List (Nat × Nat)) :
    pyIntItems (f.map fun wc => (natToChars wc.1, JsonVal.jnat wc.2))
      = .ok f := by
  induction f with
  | nil => rfl
  | cons wc f ih =>
    simp only [List.map_cons, pyIntItems, pyInt_natToChars, pyIntVal, ih]

/-- An override-free record survives serialization followed by the
`{int(k): int(v) ...}` repair of `from_dict`. -/
theorem fixup_serialize_of_noOv (d : ConvLayerDict)
    (h : d.noOverrides = true) :
    fixupConvDict (serializeConvDict d) = .ok d := by
  cases d with
  | mk f ps pstr bn act dr =>
    simp only [ConvLayerDict.noOverrides, Bool.and_eq_true,
      Option.isNone_iff_eq_none] at h
    obtain ⟨⟨⟨⟨h1, h2⟩, h3⟩, h4⟩, h5⟩ := h
    subst h1 h2 h3 h4 h5
    simp only [serializeConvDict, List.append_nil, fixupConvDict,
      pyIntItems_serialized, Except.map]

/-- A whole override-free `conv_filter_sizes` list survives serialization
and repair. -/
theorem fixupFS_serialize_of_noOv (l : List ConvLayerDict)
    (h : ∀ d ∈ l, d.noOverrides = true) :
    fixupConvFS (serializeConvFS l) = .ok l := by
  induction l with
  | nil => rfl
  | cons d l ih =>
    simp only [serializeConvFS, List.map_cons, fixupConvFS,
      fixup_serialize_of_noOv d (h d (List.mem_cons_self d l))]
    have := ih (fun d' hm => h d' (List.mem_cons_of_mem d hm))
    simp only [serializeConvFS] at this
    simp only [this]

/-- C8 (amended).  For a descriptor whose `conv_filter_sizes` records
carry only integer filter-width keys, serialization to the configuration
mapping followed by `from_dict` restores `conv_filter_sizes` identically,
with integer keys.  (The unamended "for every descriptor" claim is refuted
by `from_dict_fails_on_override_record`: `from_dict` applies `int(k)` to
every key, so a record that also carries a per-layer override key such as
`"pool_size"` makes the repair raise instead of reconstructing.) -/
theorem roundtrip_conv_filter_sizes (s : SequenceInput)
    (h : ∀ d ∈ s.conv_filter_sizes, d.noOverrides = true) :
    fixupConvFS (serializeConvFS s.conv_filter_sizes)
      = .ok s.conv_filter_sizes
    ∧ ∀ s', SequenceInput.from_dict (SequenceInput.to_dict s)
        (serializeConvFS s.conv_filter_sizes) = .ok s' →
          s'.conv_filter_sizes = s.conv_filter_sizes := by
  have hfix := fixupFS_serialize_of_noOv s.conv_filter_sizes h
  refine ⟨hfix, ?_⟩
  intro s' hs'
  simp only [SequenceInput.from_dict, hfix] at hs'
  exact (init_ok_fields _ _ hs').2

/-- A descriptor whose single conv record is the integer-keyed
`{3: 16}`. -/
def c8plain : SequenceInput :=
  builtOf { defaultArgs 9 with
    conv_filter_sizes := [⟨[(3, 16)], none, none, none, none, none⟩] }

/-- C8 witness: the round trip at the integer-keyed descriptor. -/
theorem roundtrip_conv_filter_sizes_witness :
    (c8plain.conv_filter_sizes.all ConvLayerDict.noOverrides) = true
    ∧ fixupConvFS (serializeConvFS c8plain.conv_filter_sizes)
        = .ok c8plain.conv_filter_sizes :=
  ⟨by decide, (roundtrip_conv_filter_sizes c8plain (by decide)).1⟩

/-- A descriptor whose single conv record is
`{3: 16, "pool_size": 2}`. -/
def c8overridden : SequenceInput :=
  builtOf { defaultArgs 9 with
    conv_filter_sizes := [⟨[(3, 16)], some 2, none, none, none, none⟩] }

/-- C8 counterexample: at a descriptor whose record carries the override
key `"pool_size"`, the round trip does not yield a descriptor at all —
`int("pool_size")` raises inside `from_dict`'s comprehension. -/
theorem from_dict_fails_on_override_record :
    SequenceInput.from_dict (SequenceInput.to_dict c8overridden)
      (serializeConvFS c8overridden.conv_filter_sizes)
      = .error "invalid literal for int" := by
  have h3 : Nat.digits 10 3 = [3] := by
    rw [Nat.digits_def' (by norm_num : (1 : ℕ) < 10) (by norm_num : 0 < 3)]
    simp
  simp [SequenceInput.from_dict, serializeConvFS, serializeConvDict,
    natToChars, h3, fixupConvFS, fixupConvDict, pyIntItems, pyIntChars,
    pyIntVal, c8overridden, builtOf, defaultArgs, SequenceInput.init,
    SequenceInput.to_dict, Nat.digitChar, Char.isDigit, Except.map]

end Pepnet
